import Mathlib

/-!
Verification of the client-side triage pipeline of the ai_health_care
repository: the API client (`client/lib/api.ts`), the triage form handlers
(`client/app/triage/page.tsx`), the upload / condition-select widgets, the
result renderer (`client/app/result/page.tsx` and the result components),
and the dashboard history subscription (`client/app/dashboard/page.tsx`).

Each definition is a shallow embedding of the corresponding TypeScript
function: strings stay strings, JavaScript truthiness of a string is
`s ≠ ""`, optional values become `Option`, a thrown error becomes the
`Except.error` branch, and the multipart `FormData` body becomes an
ordered association list of field-name/value pairs.
-/

namespace HealthTriage

/-- JavaScript `s || d` on strings: the empty string is the only falsy
string, so the expression yields `d` exactly when `s = ""`.
Used by `analyzePatient` for the `age` and `gender` defaults. -/
def jsOr (s d : String) : String := if s = "" then d else s

/-- JavaScript `o || d` where `o` is a string property that may be
`undefined`: yields `d` when the property is missing or the empty string.
Used by `analyzePatient` for `err?.detail || fallback`. -/
def jsOrOpt (o : Option String) (d : String) : String :=
  match o with
  | some s => if s = "" then d else s
  | none => d

/-- Models `Array.prototype.join(", ")` as used for the symptom and condition
lists in `analyzePatient`. -/
def joinComma (xs : List String) : String := String.intercalate ", " xs

/-- The argument record of `analyzePatient` (interface `AnalyzeParams` in
`client/lib/api.ts`). The optional vitals are `Option String` (absent =
`undefined`); the optional file is represented by its name. -/
structure AnalyzeParams where
  age : String
  gender : String
  symptoms : List String
  conditions : List String
  bp : Option String
  heartRate : Option String
  temperature : Option String
  file : Option String
deriving DecidableEq, Repr

/-- Models `if (v) formData.append(name, v)` for an optional string `v`: the
field is appended only when `v` is defined and non-empty (JS truthiness). -/
def optField (name : String) (v : Option String) : List (String × String) :=
  match v with
  | some s => if s = "" then [] else [(name, s)]
  | none => []

/-- Models `if (file) formData.append("file", file)`: a `File` object is always
truthy, so the part is appended exactly when a file is present. -/
def fileField (name : String) (v : Option String) : List (String × String) :=
  match v with
  | some s => [(name, s)]
  | none => []

/-- The `FormData` body built by `analyzePatient` in `client/lib/api.ts`,
as the ordered list of appended field-name/value pairs: `age` (defaulted
to `"0"`), `gender` (defaulted to `"Unknown"`), a single `symptoms` field
holding the combined sentence over both the symptom and the condition
list, then the conditional `bp`, `heart_rate`, `temperature` and `file`
parts. -/
def formFields (p : AnalyzeParams) : List (String × String) :=
  [("age", jsOr p.age "0"),
   ("gender", jsOr p.gender "Unknown"),
   ("symptoms",
     "Symptoms: " ++ joinComma p.symptoms ++
       ". Pre-existing conditions: " ++ joinComma p.conditions ++ ".")]
  ++ optField "bp" p.bp
  ++ optField "heart_rate" p.heartRate
  ++ optField "temperature" p.temperature
  ++ fileField "file" p.file

/-- The constant `API_BASE = "http://127.0.0.1:8000"` in `client/lib/api.ts`:
a hardcoded constant, no environment lookup appears in the source. -/
def API_BASE : String := "http://127.0.0.1:8000"

/-- Modelled from the spec: the spec's words for the base URL, "API base
URL is externally configurable; falls back to a local default when
unset".  Under that contract the base would be the configured value when
one is set and the local default otherwise.  Compared against the
source's `API_BASE` constant. -/
def API_BASE_configSpec (configured : Option String) : String :=
  configured.getD "http://127.0.0.1:8000"

/-- An HTTP request as observable from the client: URL, method and the
multipart fields. -/
structure Request where
  url : String
  method : String
  fields : List (String × String)
deriving DecidableEq, Repr

/-- The single `fetch` call issued by `analyzePatient`. -/
def analyzeRequest (p : AnalyzeParams) : Request :=
  { url := API_BASE ++ "/api/triage/analyze"
    method := "POST"
    fields := formFields p }

/-- All network calls made by one invocation of `analyzePatient`: the
function awaits exactly one `fetch`. -/
def analyzeRequests (p : AnalyzeParams) : List Request := [analyzeRequest p]

/-- The outcome of `res.json().catch(() => null)` on an error response:
either the body was not parseable JSON, or it parsed and its `detail`
property is the given optional string. -/
inductive ParsedBody where
  | unparseable : ParsedBody
  | parsed (detail : Option String) : ParsedBody
deriving DecidableEq, Repr

/-- The `detail` the error path can read: `err?.detail`. -/
def detailOf : ParsedBody → Option String
  | .unparseable => none
  | .parsed d => d

/-- Models `res.ok`: status in the 2xx range. -/
def resOk (status : Nat) : Bool := 200 ≤ status && status < 300

/-- The message of the error thrown by `analyzePatient` on a non-2xx
response: `err?.detail || "Request failed with status " + res.status`. -/
def errorMessage (status : Nat) (body : ParsedBody) : String :=
  jsOrOpt (detailOf body) ("Request failed with status " ++ toString status)

/-- The result handling of `analyzePatient` after the `fetch` resolves:
on a 2xx response the parsed payload is returned, otherwise an error
carrying `errorMessage` is thrown. -/
def analyzeResponse {α : Type} (status : Nat) (body : ParsedBody)
    (payload : α) : Except String α :=
  if resOk status then .ok payload else .error (errorMessage status body)

end HealthTriage

namespace HealthTriage

/-- C1 counterexample input: symptoms `["Fever", "Fatigue"]`,
conditions `["None"]`, no vitals, no file. -/
def c1Params : AnalyzeParams :=
  { age := "30", gender := "Male"
    symptoms := ["Fever", "Fatigue"], conditions := ["None"]
    bp := none, heartRate := none, temperature := none, file := none }

end HealthTriage

namespace HealthTriage

/-- The local state of the triage form page: selected symptoms and
conditions, the three vital-sign text inputs, and the optional attached
file (by name). -/
structure TriageFormState where
  symptoms : List String
  conditions : List String
  bp : String
  heartRate : String
  temperature : String
  file : Option String
deriving DecidableEq, Repr

/-- The guard `vitalsComplete = bp.trim() !== "" && heartRate.trim() !== ""
&& temperature.trim() !== "";` from `client/app/triage/page.tsx`. -/
def vitalsComplete (s : TriageFormState) : Bool :=
  !(s.bp.trim == "") && !(s.heartRate.trim == "") && !(s.temperature.trim == "")

/-- What a run of `handleSubmit` does up to the network: either it sets a
validation error and returns, or it invokes `analyzePatient` with the
assembled arguments. -/
inductive SubmitOutcome where
  | blocked (msg : String) : SubmitOutcome
  | submitted (p : AnalyzeParams) : SubmitOutcome
deriving DecidableEq, Repr

/-- Whether the outcome reaches the network call. -/
def issuesCall : SubmitOutcome → Bool
  | .blocked _ => false
  | .submitted _ => true

/-- The `handleSubmit` of the stricter triage page variant
(`client/app/triage/page.tsx`, the variant with vitals): blocks when no
symptom is selected and no file is attached, then blocks when the three
vitals are not all non-empty after trimming, otherwise calls
`analyzePatient` with the form data. -/
def handleSubmitStrict (age gender : String) (s : TriageFormState) : SubmitOutcome :=
  if s.symptoms.isEmpty && s.file.isNone then
    .blocked "Please select at least one symptom or upload a medical report."
  else if !(vitalsComplete s) then
    .blocked "Blood Pressure, Heart Rate, and Temperature are required."
  else
    .submitted
      { age := age, gender := gender
        symptoms := s.symptoms, conditions := s.conditions
        bp := some s.bp, heartRate := some s.heartRate
        temperature := some s.temperature, file := s.file }

/-- The `handleSubmit` of the lax triage page variant (the variant
without vitals): blocks only when no symptom is selected — an attached
file alone does not unblock it — otherwise calls `analyzePatient`. -/
def handleSubmitLax (age gender : String) (s : TriageFormState) : SubmitOutcome :=
  if s.symptoms.isEmpty then
    .blocked "Please select at least one symptom."
  else
    .submitted
      { age := age, gender := gender
        symptoms := s.symptoms, conditions := s.conditions
        bp := none, heartRate := none, temperature := none, file := s.file }

/-- The list `ACCEPTED_TYPES = [...]` in the `FileUpload` component. -/
def ACCEPTED_TYPES : List String :=
  ["application/pdf", "image/png", "image/jpeg", "image/webp", "image/gif"]

/-- A file picked in the file input: name and MIME type. -/
structure SelectedFile where
  name : String
  mimeType : String
deriving DecidableEq, Repr

/-- The state `FileUpload.handleChange` can touch: the form's file state,
the inline error message, and the value of the underlying `<input>`
element (which the handler never writes). -/
structure UploadState where
  file : Option SelectedFile
  error : String
  inputValue : String
deriving DecidableEq, Repr

/-- Models `FileUpload.handleChange`: when a file is selected and its MIME type
is accepted, the file state is populated and the error cleared; otherwise
the error message is set and the file state reset to `null`.  The input
element's value is left untouched in every branch. -/
def FileUpload_handleChange (selected : Option SelectedFile)
    (st : UploadState) : UploadState :=
  match selected with
  | some f =>
      if ACCEPTED_TYPES.contains f.mimeType then
        { st with file := some f, error := "" }
      else
        { st with file := none,
                  error := "Please select a valid file (PDF or image)." }
  | none =>
      { st with file := none,
                error := "Please select a valid file (PDF or image)." }

/-- Models `ConditionSelect.toggle`: toggling `"None"` yields `[]` when it was
selected and `["None"]` otherwise; toggling any other condition first
drops `"None"` from the selection and then removes or appends the
condition. -/
def ConditionSelect_toggle (selected : List String) (condition : String) :
    List String :=
  if condition = "None" then
    if selected.contains "None" then [] else ["None"]
  else if (selected.filter (fun c => c ≠ "None")).contains condition then
    (selected.filter (fun c => c ≠ "None")).filter (fun c => c ≠ condition)
  else
    selected.filter (fun c => c ≠ "None") ++ [condition]

/-- The mutual-exclusion invariant of the condition selector: when
`"None"` is selected it is the only selection. -/
def noneExclusive (l : List String) : Prop := "None" ∈ l → l = ["None"]

instance (l : List String) : Decidable (noneExclusive l) := by
  unfold noneExclusive; infer_instance

end HealthTriage

namespace HealthTriage

/-- The `ml_prediction` part of a `TriageResult` (store `userStore.ts`). -/
structure MLPrediction where
  risk_level : String
  department : String
  risk_confidence : ℚ
  department_confidence : ℚ
deriving DecidableEq, Repr

/-- The `ai_explanation` part of a `TriageResult`. -/
structure AIExplanation where
  risk_level : String
  summary : String
  key_findings : List String
  recommended_action : String
  urgency_score : ℚ
deriving DecidableEq, Repr

/-- The `final_recommendation` part of a `TriageResult`. -/
structure FinalRecommendation where
  risk_level : String
  department : String
  summary : String
  recommended_action : String
  urgency_score : ℚ
deriving DecidableEq, Repr

/-- One entry of `vital_analysis`. -/
structure VitalCheck where
  name : String
  value : String
  status : String
  score : ℚ
deriving DecidableEq, Repr

/-- The `dept_insights` part of a `TriageResult`. -/
structure DepartmentInsight where
  department_name : String
  wait_time_estimate : String
  immediate_action : String
  specialist_type : String
deriving DecidableEq, Repr

/-- The `care_plan` part of a `TriageResult`. -/
structure CarePlan where
  care_instructions : List String
  dietary_recommendations : List String
  dietary_restrictions : List String
deriving DecidableEq, Repr

/-- The `TriageResult` interface of the store: `ml_prediction` may be
null. -/
structure TriageResult where
  ml_prediction : Option MLPrediction
  ai_explanation : AIExplanation
  final_recommendation : FinalRecommendation
  risk_factors : List String
  vital_analysis : List VitalCheck
  dept_insights : DepartmentInsight
  care_plan : CarePlan
  confidence_score : ℚ
deriving DecidableEq, Repr

/-- The clamp `Math.max(0, Math.min(100, score))` computed by `ConfidenceGauge`
in `client/app/result/page.tsx`. -/
def ConfidenceGauge_clamped (score : ℚ) : ℚ := max 0 (min 100 score)

/-- The bar width `Math.max(0, Math.min(100, vital.score))` computed per
vital by `VitalViz` in `client/components/result/VitalViz.tsx`. -/
def VitalViz_barWidth (v : VitalCheck) : ℚ := max 0 (min 100 v.score)

/-- The lookup `STATUS_LABEL[vital.status] ?? vital.status` in `VitalViz`. -/
def statusLabel (s : String) : String :=
  if s = "normal" then "Normal"
  else if s = "warning" then "Warning"
  else if s = "critical" then "Critical"
  else s

/-- An abstract piece of the result page's output, one constructor per
card or sub-section the page can emit.  `mlPrediction` exists in the type
so that its absence from every render can be stated. -/
inductive ResultSection where
  | riskBadge (riskLevel : String) : ResultSection
  | confidenceGauge (displayed : ℚ) : ResultSection
  | departmentCard (department : String) (urgency : ℚ) : ResultSection
  | summaryCard (summary : String) (recommendedAction : Option String) : ResultSection
  | riskFactors (factors : List String) : ResultSection
  | deptInsights (i : DepartmentInsight) : ResultSection
  | vitalSigns (bars : List (String × ℚ × String)) : ResultSection
  | carePlan (p : CarePlan) : ResultSection
  | keyFindings (findings : List String) : ResultSection
  | mlPrediction (m : MLPrediction) : ResultSection
deriving DecidableEq, Repr

/-- The `RiskFactors` component: `if (!factors || factors.length === 0)
return null`, otherwise the card with the list. -/
def RiskFactors_render (factors : List String) : List ResultSection :=
  if factors.isEmpty then [] else [.riskFactors factors]

/-- The `DepartmentCard` component: `if (!insights || !insights.
department_name) return null`, otherwise the insights card. -/
def DepartmentCard_render (insights : DepartmentInsight) : List ResultSection :=
  if insights.department_name = "" then [] else [.deptInsights insights]

/-- The `VitalViz` component: `if (!vitals || vitals.length === 0) return
null`, otherwise one clamped bar per vital. -/
def VitalViz_render (vitals : List VitalCheck) : List ResultSection :=
  if vitals.isEmpty then []
  else [.vitalSigns (vitals.map (fun v => (v.name, VitalViz_barWidth v, statusLabel v.status)))]

/-- The `CarePlanCard` component: renders nothing when all three lists are
empty, otherwise the care-plan card. -/
def CarePlanCard_render (plan : CarePlan) : List ResultSection :=
  if plan.care_instructions.isEmpty && plan.dietary_recommendations.isEmpty
      && plan.dietary_restrictions.isEmpty then []
  else [.carePlan plan]

/-- The analytics `ResultPage` of `client/app/result/page.tsx`, as the
ordered list of sections it emits for a non-null `TriageResult`: risk
badge, confidence gauge and department card (always), the summary card
(with the recommended action only when that string is truthy), then the
conditional risk-factor, department-insight, vital-sign, care-plan and
key-finding sections.  No branch emits an ML-prediction section. -/
def resultPage_render (t : TriageResult) : List ResultSection :=
  [.riskBadge t.final_recommendation.risk_level,
   .confidenceGauge (ConfidenceGauge_clamped t.confidence_score),
   .departmentCard t.final_recommendation.department
     t.final_recommendation.urgency_score,
   .summaryCard t.final_recommendation.summary
     (if t.final_recommendation.recommended_action = "" then none
      else some t.final_recommendation.recommended_action)]
  ++ RiskFactors_render t.risk_factors
  ++ DepartmentCard_render t.dept_insights
  ++ VitalViz_render t.vital_analysis
  ++ CarePlanCard_render t.care_plan
  ++ (if t.ai_explanation.key_findings.isEmpty then []
      else [.keyFindings t.ai_explanation.key_findings])

/-- C5 witness input: a result with empty optional lists and a null
`ml_prediction`. -/
def c5Result : TriageResult where
  ml_prediction := none
  ai_explanation :=
    { risk_level := "Low"
      summary := "ok"
      key_findings := []
      recommended_action := ""
      urgency_score := 2 }
  final_recommendation :=
    { risk_level := "Low"
      department := "General"
      summary := "ok"
      recommended_action := ""
      urgency_score := 2 }
  risk_factors := []
  vital_analysis := []
  dept_insights :=
    { department_name := ""
      wait_time_estimate := ""
      immediate_action := ""
      specialist_type := "" }
  care_plan :=
    { care_instructions := []
      dietary_recommendations := []
      dietary_restrictions := [] }
  confidence_score := 80

end HealthTriage

namespace HealthTriage

/-- One document of the per-user `history` sub-collection, as the
dashboard's `HistoryEntry` interface reads it.  The server-assigned
timestamp is modelled as an integer instant. -/
structure HistoryDoc where
  id : String
  timestamp : Int
  risk_level : String
  symptoms : List String
deriving DecidableEq, Repr

/-- A document-store query descriptor: collection path, ordering field
and direction. -/
structure QuerySpec where
  path : List String
  orderByField : String
  descending : Bool
deriving DecidableEq, Repr

/-- The query built by the dashboard:
`query(collection(db, "users", uid, "history"), orderBy("timestamp",
"desc"))`. -/
def dashboardHistoryQuery (uid : String) : QuerySpec :=
  { path := ["users", uid, "history"]
    orderByField := "timestamp"
    descending := true }

/-- Newest-first comparison on history documents. -/
def newerFirst (a b : HistoryDoc) : Prop := b.timestamp ≤ a.timestamp

instance : DecidableRel newerFirst := fun a b =>
  inferInstanceAs (Decidable (b.timestamp ≤ a.timestamp))

instance : IsTotal HistoryDoc newerFirst :=
  ⟨fun a b => le_total b.timestamp a.timestamp⟩

instance : IsTrans HistoryDoc newerFirst :=
  ⟨fun _ _ _ h1 h2 => le_trans h2 h1⟩

/-- Modelled from the spec: the document store executing the dashboard's
descending-timestamp query — the spec's "server-ordered (timestamp
descending) list" — delivers the stored documents sorted newest first to
the `onSnapshot` callback.  The sort itself happens in the external
store; only the descriptor above is client code. -/
def runHistoryQuery (stored : List HistoryDoc) : List HistoryDoc :=
  List.insertionSort newerFirst stored

/-- The dashboard timeline: `history.map((entry) => ...)` renders one
item per received entry, in received order, keyed by `entry.id` and
showing the risk label and the comma-joined symptoms. -/
def renderTimeline (history : List HistoryDoc) : List (String × String × String) :=
  history.map (fun e => (e.id, e.risk_level, joinComma e.symptoms))

end HealthTriage

open HealthTriage

/-- C1, counterexample: with symptoms `["Fever", "Fatigue"]` the request's
`symptoms` field does not carry `"Fever, Fatigue"` but the combined
sentence that also embeds the conditions, and no `conditions` field is
appended at all. -/
theorem c1_symptoms_field_counterexample :
    (formFields c1Params).lookup "symptoms" =
      some "Symptoms: Fever, Fatigue. Pre-existing conditions: None."
    ∧ (formFields c1Params).lookup "symptoms" ≠ some "Fever, Fatigue"
    ∧ (formFields c1Params).lookup "conditions" = none := by
  refine ⟨by decide, by decide, by decide⟩

/-- A key absent from every pair of an association list is not found. -/
theorem lookup_eq_none_of_keys {l : List (String × String)} {k : String}
    (h : ∀ q ∈ l, q.1 ≠ k) : l.lookup k = none := by
  induction l with
  | nil => rfl
  | cons a t ih =>
      have ha : a.1 ≠ k := h a (List.mem_cons_self a t)
      have ht : ∀ q ∈ t, q.1 ≠ k := fun q hq => h q (List.mem_cons_of_mem a hq)
      have hk : (k == a.1) = false := beq_eq_false_iff_ne.mpr (Ne.symm ha)
      simp [List.lookup, hk, ih ht]

/-- Every field name appended by `optField name v` is `name`. -/
theorem optField_key {name : String} {v : Option String} {q : String × String}
    (h : q ∈ optField name v) : q.1 = name := by
  cases v with
  | none => simp [optField] at h
  | some s =>
      by_cases hs : s = "" <;> simp [optField, hs] at h
      simp [h]

/-- Every field name appended by `fileField name v` is `name`. -/
theorem fileField_key {name : String} {v : Option String} {q : String × String}
    (h : q ∈ fileField name v) : q.1 = name := by
  cases v with
  | none => simp [fileField] at h
  | some s => simp [fileField] at h; simp [h]

/-- The keys ever appended by `analyzePatient`. -/
theorem formFields_keys (p : AnalyzeParams) :
    ∀ q ∈ formFields p,
      q.1 ∈ ["age", "gender", "symptoms", "bp", "heart_rate", "temperature", "file"] := by
  intro q hq
  simp only [formFields, List.mem_append, List.mem_cons,
    List.not_mem_nil, or_false] at hq
  rcases hq with ((((h | h | h) | h) | h) | h) | h
  · simp [h]
  · simp [h]
  · simp [h]
  · simp [optField_key h]
  · simp [optField_key h]
  · simp [optField_key h]
  · simp [fileField_key h]

/-- C1, amended: the request carries a single `symptoms` field whose value
is the sentence `"Symptoms: <S comma-joined>. Pre-existing conditions:
<C comma-joined>."` embedding both lists, and no `conditions` field is
ever appended. -/
theorem c1_symptoms_field_amended (p : AnalyzeParams) :
    (formFields p).lookup "symptoms" =
      some ("Symptoms: " ++ String.intercalate ", " p.symptoms ++
        ". Pre-existing conditions: " ++ String.intercalate ", " p.conditions ++ ".")
    ∧ (formFields p).lookup "conditions" = none := by
  constructor
  · simp [formFields, List.lookup, joinComma]
  · refine lookup_eq_none_of_keys ?_
    intro q hq
    have := formFields_keys p q hq
    simp only [List.mem_cons, List.mem_singleton, List.not_mem_nil, or_false] at this
    rcases this with h | h | h | h | h | h | h <;> simp [h]

/-- C2, counterexample: a 503 response whose body parses as JSON with the
`detail` field present but equal to `""` does not yield that detail as the
error message — JavaScript `||` treats the empty string as falsy, so the
thrown message is the generic one. -/
theorem c2_error_detail_counterexample :
    analyzeResponse 503 (ParsedBody.parsed (some "")) () =
      Except.error "Request failed with status 503"
    ∧ ("Request failed with status 503" : String) ≠ "" := by
  refine ⟨rfl, by decide⟩

/-- C2, amended: every non-2xx response throws; when the body parsed with
a non-empty `detail` string the message is exactly that string, and when
the body was not parseable JSON (or `detail` is missing or empty) the
message is exactly `"Request failed with status <code>"`. -/
theorem c2_error_mapping_amended {α : Type} (status : Nat) (body : ParsedBody)
    (payload : α) (h : resOk status = false) :
    (∃ msg, analyzeResponse status body payload = Except.error msg)
    ∧ (∀ d, body = ParsedBody.parsed (some d) → d ≠ "" →
        analyzeResponse status body payload = Except.error d)
    ∧ ((detailOf body = none ∨ detailOf body = some "") →
        analyzeResponse status body payload =
          Except.error ("Request failed with status " ++ toString status)) := by
  refine ⟨⟨errorMessage status body, by simp [analyzeResponse, h]⟩, ?_, ?_⟩
  · intro d hd hne
    subst hd
    simp [analyzeResponse, h, errorMessage, jsOrOpt, detailOf, hne]
  · intro hd
    rcases hd with hd | hd <;>
      simp [analyzeResponse, h, errorMessage, jsOrOpt, hd]

/-- C2 witness: at status 503 with an unparseable body the amended
theorem yields the generic message. -/
theorem c2_error_mapping_witness :
    analyzeResponse 503 ParsedBody.unparseable () =
      Except.error "Request failed with status 503" :=
  (c2_error_mapping_amended 503 ParsedBody.unparseable () (by decide)).2.2
    (Or.inl rfl)

/-- C4, counterexample: the source defines `API_BASE` as the literal
`"http://127.0.0.1:8000"` with no environment lookup, so even when an
external configuration supplies a base URL the issued request still
targets the hardcoded host, contradicting the configured-base contract. -/
theorem c4_base_url_counterexample :
    (analyzeRequest c1Params).url = "http://127.0.0.1:8000/api/triage/analyze"
    ∧ API_BASE_configSpec (some "https://api.example.com") ≠ API_BASE := by
  refine ⟨by decide, by decide⟩

/-- C4, amended: every invocation of `analyzePatient` issues exactly one
request, a POST to the hardcoded base `"http://127.0.0.1:8000"`
concatenated with `"/api/triage/analyze"`; the base URL is a source
constant, not read from external configuration. -/
theorem c4_single_post_amended (p : AnalyzeParams) :
    analyzeRequests p = [analyzeRequest p]
    ∧ (analyzeRequest p).method = "POST"
    ∧ (analyzeRequest p).url = "http://127.0.0.1:8000" ++ "/api/triage/analyze" := by
  refine ⟨rfl, rfl, rfl⟩

/-- C9, confirmed: the `age` field is always present and carries `"0"`
when the age argument is empty, the `gender` field is always present and
carries `"Unknown"` when the gender argument is empty, and non-empty
values pass through unchanged. -/
theorem c9_age_gender_defaults (p : AnalyzeParams) :
    (formFields p).lookup "age" = some (if p.age = "" then "0" else p.age)
    ∧ (formFields p).lookup "gender" =
        some (if p.gender = "" then "Unknown" else p.gender) := by
  constructor <;> simp [formFields, List.lookup, jsOr]

/-- C3, counterexample: in the lax triage variant a submission with zero
symptoms but an attached file is blocked with the validation message and
never reaches `analyzePatient`, although the claim's condition (a symptom
or a file) holds. -/
theorem c3_submit_gating_counterexample :
    handleSubmitLax "30" "Male"
        { symptoms := [], conditions := [], bp := "", heartRate := ""
          temperature := "", file := some "report.pdf" } =
      SubmitOutcome.blocked "Please select at least one symptom."
    ∧ issuesCall (handleSubmitLax "30" "Male"
        { symptoms := [], conditions := [], bp := "", heartRate := ""
          temperature := "", file := some "report.pdf" }) = false := by
  refine ⟨by decide, by decide⟩

/-- C3, amended: the stricter variant reaches the network call exactly
when a symptom is selected or a file is attached and all three vitals are
non-empty after trimming; the lax variant reaches it exactly when at
least one symptom is selected (a file alone does not suffice).  Whenever
a variant does not call, it sets a non-empty validation message. -/
theorem c3_submit_gating_amended (age gender : String) (s : TriageFormState) :
    issuesCall (handleSubmitStrict age gender s) =
      ((!s.symptoms.isEmpty || s.file.isSome) && vitalsComplete s)
    ∧ issuesCall (handleSubmitLax age gender s) = !s.symptoms.isEmpty
    ∧ (issuesCall (handleSubmitStrict age gender s) = false →
        ∃ m, handleSubmitStrict age gender s = SubmitOutcome.blocked m ∧ m ≠ "")
    ∧ (issuesCall (handleSubmitLax age gender s) = false →
        ∃ m, handleSubmitLax age gender s = SubmitOutcome.blocked m ∧ m ≠ "") := by
  refine ⟨?_, ?_, ?_, ?_⟩
  · cases hE : s.symptoms.isEmpty <;> rcases hf : s.file with _ | f <;>
      cases hV : vitalsComplete s <;>
        simp [handleSubmitStrict, hE, hf, hV, issuesCall]
  · cases hE : s.symptoms.isEmpty <;>
      simp [handleSubmitLax, hE, issuesCall]
  · cases hE : s.symptoms.isEmpty <;> rcases hf : s.file with _ | f <;>
      cases hV : vitalsComplete s <;>
        simp [handleSubmitStrict, hE, hf, hV, issuesCall]
  · cases hE : s.symptoms.isEmpty <;>
      simp [handleSubmitLax, hE, issuesCall]

/-- C3 witness: the empty form is blocked by the strict variant with a
non-empty message. -/
theorem c3_submit_gating_witness :
    ∃ m, handleSubmitStrict "30" "Male"
        { symptoms := [], conditions := [], bp := "", heartRate := ""
          temperature := "", file := none } = SubmitOutcome.blocked m ∧ m ≠ "" :=
  (c3_submit_gating_amended "30" "Male"
      { symptoms := [], conditions := [], bp := "", heartRate := ""
        temperature := "", file := none }).2.2.1 (by decide)

/-- C7, counterexample: selecting a `text/plain` file is rejected (error
set, file state `null`), but the handler never clears the file input —
the `<input>` element's value is left as the browser set it, not reset to
the empty string as the claim states. -/
theorem c7_file_input_counterexample :
    (FileUpload_handleChange (some { name := "a.txt", mimeType := "text/plain" })
        { file := none, error := "", inputValue := "a.txt" }).inputValue = "a.txt"
    ∧ ("a.txt" : String) ≠ "" := by
  refine ⟨by decide, by decide⟩

/-- C7, amended: for every selected file, the file state is populated iff
the MIME type is one of the five accepted types; a rejected selection
sets the inline error `"Please select a valid file (PDF or image)."` and
resets the file state to `null`, but the file input's value is left
unchanged (it is not cleared). -/
theorem c7_file_type_gate_amended (f : SelectedFile) (st : UploadState) :
    ((FileUpload_handleChange (some f) st).file = some f ↔
      f.mimeType ∈ ACCEPTED_TYPES)
    ∧ ((FileUpload_handleChange (some f) st).file = none ↔
      f.mimeType ∉ ACCEPTED_TYPES)
    ∧ ((FileUpload_handleChange (some f) st).error =
        "Please select a valid file (PDF or image)." ↔
      f.mimeType ∉ ACCEPTED_TYPES)
    ∧ ((FileUpload_handleChange (some f) st).error = "" ↔
      f.mimeType ∈ ACCEPTED_TYPES)
    ∧ (FileUpload_handleChange (some f) st).inputValue = st.inputValue := by
  by_cases h : f.mimeType ∈ ACCEPTED_TYPES <;>
    simp [FileUpload_handleChange, h]

/-- C8, confirmed: the `"None"` sentinel invariant is preserved by every
toggle of the condition selector — toggling `"None"` yields `[]` or
exactly `["None"]`, and toggling any other condition removes `"None"`
first, so `"None"` never coexists with another condition. -/
theorem c8_none_exclusive_invariant (l : List String) (c : String)
    (h : noneExclusive l) :
    noneExclusive (ConditionSelect_toggle l c)
    ∧ (c = "None" →
        ConditionSelect_toggle l c = [] ∨ ConditionSelect_toggle l c = ["None"])
    ∧ (c ≠ "None" → "None" ∉ ConditionSelect_toggle l c) := by
  by_cases hc : c = "None"
  · subst hc
    by_cases hm : l.contains "None" = true <;>
      simp [ConditionSelect_toggle, hm, noneExclusive] <;>
      exact or_not
  · have hwn : "None" ∉ l.filter (fun x => x ≠ "None") := by
      intro hx
      have h2 := (List.mem_filter.mp hx).2
      simp at h2
    have hnone : "None" ∉ ConditionSelect_toggle l c := by
      intro hx
      simp only [ConditionSelect_toggle, if_neg hc] at hx
      by_cases hmem : (l.filter (fun x => x ≠ "None")).contains c = true
      · rw [if_pos hmem] at hx
        exact hwn (List.mem_of_mem_filter hx)
      · rw [if_neg hmem] at hx
        rcases List.mem_append.mp hx with hx | hx
        · exact hwn hx
        · simp only [List.mem_singleton] at hx
          exact hc hx.symm
    exact ⟨fun hmem => absurd hmem hnone, fun hceq => absurd hceq hc,
      fun _ => hnone⟩

/-- C8 witness: from the selection `["None"]`, toggling `"Diabetes"`
keeps the invariant and removes `"None"`. -/
theorem c8_none_exclusive_witness :
    noneExclusive (ConditionSelect_toggle ["None"] "Diabetes")
    ∧ "None" ∉ ConditionSelect_toggle ["None"] "Diabetes" :=
  ⟨(c8_none_exclusive_invariant ["None"] "Diabetes" (by decide)).1,
   (c8_none_exclusive_invariant ["None"] "Diabetes" (by decide)).2.2
     (by decide)⟩

/-- C5, confirmed: empty `risk_factors` emits no risk-factor section,
empty `key_findings` emits no key-findings section, a care plan whose
three lists are all empty emits no care-plan card, a null
`ml_prediction` emits no ML-prediction section (no branch of the page
ever does), and the `final_recommendation` risk level, department,
urgency and summary are rendered in every case. -/
theorem c5_result_render_omissions (t : TriageResult) :
    (t.risk_factors = [] →
      ∀ fs, ResultSection.riskFactors fs ∉ resultPage_render t)
    ∧ (t.ai_explanation.key_findings = [] →
      ∀ fs, ResultSection.keyFindings fs ∉ resultPage_render t)
    ∧ (t.care_plan.care_instructions = [] →
       t.care_plan.dietary_recommendations = [] →
       t.care_plan.dietary_restrictions = [] →
      ∀ p, ResultSection.carePlan p ∉ resultPage_render t)
    ∧ (t.ml_prediction = none →
      ∀ m, ResultSection.mlPrediction m ∉ resultPage_render t)
    ∧ ResultSection.riskBadge t.final_recommendation.risk_level ∈
        resultPage_render t
    ∧ ResultSection.departmentCard t.final_recommendation.department
        t.final_recommendation.urgency_score ∈ resultPage_render t
    ∧ ResultSection.summaryCard t.final_recommendation.summary
        (if t.final_recommendation.recommended_action = "" then none
         else some t.final_recommendation.recommended_action) ∈
        resultPage_render t := by
  refine ⟨?_, ?_, ?_, ?_, ?_, ?_, ?_⟩
  · intro h fs
    simp [resultPage_render, RiskFactors_render, DepartmentCard_render,
      VitalViz_render, CarePlanCard_render, h]
  · intro h fs
    simp [resultPage_render, RiskFactors_render, DepartmentCard_render,
      VitalViz_render, CarePlanCard_render, h]
  · intro h1 h2 h3 p
    simp [resultPage_render, RiskFactors_render, DepartmentCard_render,
      VitalViz_render, CarePlanCard_render, h1, h2, h3]
  · intro _ m
    simp [resultPage_render, RiskFactors_render, DepartmentCard_render,
      VitalViz_render, CarePlanCard_render]
  · simp [resultPage_render]
  · simp [resultPage_render]
  · simp [resultPage_render]

/-- C5 witness: on `c5Result` no risk-factor section and no
ML-prediction section is rendered. -/
theorem c5_result_render_witness :
    (∀ fs, ResultSection.riskFactors fs ∉ resultPage_render c5Result)
    ∧ (∀ m, ResultSection.mlPrediction m ∉ resultPage_render c5Result) :=
  ⟨(c5_result_render_omissions c5Result).1 rfl,
   (c5_result_render_omissions c5Result).2.2.2.1 rfl⟩

/-- C10, confirmed: the confidence percentage displayed by
`ConfidenceGauge` and the bar width computed by `VitalViz` both equal
`max 0 (min 100 score)` and therefore always lie in `[0, 100]`, whatever
numeric score the server returned. -/
theorem c10_clamped_scores (score : ℚ) (v : VitalCheck) :
    ConfidenceGauge_clamped score = max 0 (min 100 score)
    ∧ VitalViz_barWidth v = max 0 (min 100 v.score)
    ∧ 0 ≤ ConfidenceGauge_clamped score ∧ ConfidenceGauge_clamped score ≤ 100
    ∧ 0 ≤ VitalViz_barWidth v ∧ VitalViz_barWidth v ≤ 100 := by
  refine ⟨rfl, rfl, le_max_left _ _, ?_, le_max_left _ _, ?_⟩
  · exact max_le (by norm_num) (min_le_left _ _)
  · exact max_le (by norm_num) (min_le_left _ _)

/-- C6, confirmed: the list the dashboard receives is a permutation of
the stored history sorted by timestamp descending, the timeline renders
it in received order, and consequently an entry with the larger
timestamp `T2` appears at a strictly smaller rendered index than any
entry with smaller timestamp `T1`; the issued query descriptor orders the
per-user `history` collection by `timestamp` descending. -/
theorem c6_dashboard_newest_first (uid : String) (stored : List HistoryDoc) :
    (runHistoryQuery stored).Perm stored
    ∧ (runHistoryQuery stored).Pairwise
        (fun a b => b.timestamp ≤ a.timestamp)
    ∧ renderTimeline (runHistoryQuery stored) =
        (runHistoryQuery stored).map
          (fun e => (e.id, e.risk_level, joinComma e.symptoms))
    ∧ (∀ (i j : Nat) (hi : i < (runHistoryQuery stored).length)
          (hj : j < (runHistoryQuery stored).length),
        ((runHistoryQuery stored).get ⟨i, hi⟩).timestamp <
            ((runHistoryQuery stored).get ⟨j, hj⟩).timestamp → j < i)
    ∧ dashboardHistoryQuery uid =
        { path := ["users", uid, "history"], orderByField := "timestamp",
          descending := true } := by
  have hsorted : List.Sorted newerFirst (runHistoryQuery stored) :=
    List.sorted_insertionSort newerFirst stored
  refine ⟨List.perm_insertionSort newerFirst stored, hsorted, rfl, ?_, rfl⟩
  intro i j hi hj hlt
  by_contra hij
  push_neg at hij
  rcases lt_or_eq_of_le hij with hij | hij
  · have := List.pairwise_iff_get.mp hsorted ⟨i, hi⟩ ⟨j, hj⟩ hij
    exact absurd hlt (not_lt.mpr this)
  · subst hij
    exact lt_irrefl _ (by exact_mod_cast hlt)

/-- C6 witness: with two stored entries timestamped 1 and 2, the
received list puts the entry timestamped 2 first, and the index
comparison of the main theorem is discharged at that concrete store. -/
theorem c6_dashboard_newest_first_witness :
    renderTimeline (runHistoryQuery
      [{ id := "a", timestamp := 1, risk_level := "Low", symptoms := [] },
       { id := "b", timestamp := 2, risk_level := "High", symptoms := [] }]) =
      [("b", "High", ""), ("a", "Low", "")]
    ∧ (0 : Nat) < 1 := by
  have h := (c6_dashboard_newest_first "u"
    [{ id := "a", timestamp := 1, risk_level := "Low", symptoms := [] },
     { id := "b", timestamp := 2, risk_level := "High", symptoms := [] }]).2.2.2.1
  exact ⟨by decide, h 1 0 (by decide) (by decide) (by decide)⟩
